import Mathlib

/-!
Shallow embedding of the containerd client wrapper (package `runtime`,
`ContainerdClient` in the repository source) and proofs about its operations.

Modelling conventions:
* Outcomes of calls into the external containerd engine (dialing a connection,
  pulling an image, unpacking, generating a spec, creating a container,
  creating/starting/deleting a task, listing namespaces or containers,
  querying task status) are supplied by a per-operation environment record of
  `Except GoError _` values: each external call happens at most once per
  operation, so one field per call suffices.
* Every operation returns a triple: the Go result (`Except` models
  `(value, error)` returns), the updated client state, and a trace of events
  in execution order.  The trace records context creation/cancellation
  (Go `defer cancel()` makes `cancel` the final event on every path),
  connection dialing, `resetConnection` calls, and each engine call.
* Go errors are modelled by `GoError`: a message string plus the
  `errdefs.IsNotFound` flag.  `errors.Wrapf(err, msg)` produces the message
  `msg ++ ": " ++ err.msg` (pkg/errors formatting).  In `StartContainer` the
  call `errors.Wrapf(err, "Failed to start task in container", container.ID())`
  passes a surplus argument to a format string with no verb; Go `fmt` renders
  this as `"Failed to start task in container%!(EXTRA string=<id>)"`, which we
  reproduce literally.
* `model.Pod`, `model.Container` and `model.DefaultNamespace` come from a
  package outside this source file; only `GetNamespace()`, `.ID`, `.Image` and
  the (value-irrelevant) default-namespace constant are used here, so they are
  modelled by minimal structures.  `getContainerLabels` is only passed through
  to the engine call and is not observable in any result, so the
  `newContainer` trace event records the container id only.
-/

/-- A Go error value: its rendered message and whether `errdefs.IsNotFound`
holds for it. -/
structure GoError where
  notFound : Bool
  msg : String
deriving DecidableEq, Repr

deriving instance DecidableEq for Except

/-- `errors.Wrapf` and `errors.Wrap` of pkg/errors: the new message is the
context followed by the cause, joined by a colon. -/
def wrap (context : String) (e : GoError) : GoError :=
  { notFound := e.notFound, msg := context ++ ": " ++ e.msg }

/-- Opaque handle for a `*containerd.Client` connection. -/
structure Conn where
  id : Nat
deriving DecidableEq, Repr

/-- A pulled `containerd.Image`: `Name()` and `Target().Digest`. -/
structure Image where
  name : String
  digest : String
deriving DecidableEq, Repr

/-- A `containerd.Task` handle; only `Pid()` is ever read (for a debug log). -/
structure RtTask where
  pid : Nat
deriving DecidableEq, Repr

/-- A `containerd.Container` handle; `ID()` is the only observable used. -/
structure RtContainer where
  id : String
deriving DecidableEq, Repr

/-- One entry of the namespace service ListNamespaces response. -/
structure NamespaceInfo where
  name : String
deriving DecidableEq, Repr

/-- `model.Pod`: only `GetNamespace()` is used by this file. -/
structure Pod where
  ns : String
deriving DecidableEq, Repr

def Pod.GetNamespace (p : Pod) : String := p.ns

/-- `model.Container`: the fields `ID` and `Image` used by this file. -/
structure MContainer where
  id : String
  image : String
deriving DecidableEq, Repr

/-- The containerd task-status enumeration (`task.Status`). -/
inductive TaskStatus
  | unknown
  | created
  | running
  | stopped
  | paused
  | pausing
deriving DecidableEq, Repr

/-- `task.Status.String()`: the canonical upper-case name of each status. -/
def TaskStatus.toString : TaskStatus → String
  | .unknown => "UNKNOWN"
  | .created => "CREATED"
  | .running => "RUNNING"
  | .stopped => "STOPPED"
  | .paused => "PAUSED"
  | .pausing => "PAUSING"

/-- The task service GetRequest response: `resp.Process.Status`. -/
structure TaskInfo where
  status : TaskStatus
deriving DecidableEq, Repr

/-- `model.DefaultNamespace` (defined outside this source file; its exact
value is immaterial to every property proved here). -/
def DefaultNamespace : String := "default"

/-- The fixed snapshot driver name (`var snapshotter = "overlayfs"`). -/
def snapshotterName : String := "overlayfs"

/-- Trace events: context lifecycle, connection management, and each call
into the containerd engine, in execution order. -/
inductive Event
  | mkContext (deadline : Bool)
  | cancel
  | connect (addr : String) (ns : String)
  | reset
  | ensurePull (ns : String) (ref : String)
  | pull (ref : String)
  | unpack (digest : String)
  | genSpec
  | newContainer (id : String)
  | newTask (id : String)
  | taskStart
  | taskDelete
  | containerTask (id : String)
  | containerDelete (id : String)
  | listNamespaces
  | taskGet (id : String)
  | listContainers
deriving DecidableEq, Repr

/-- `ContainerdClient`: the cached `client` field, the configured timeout
(`time.Duration`, an integer nanosecond count) and the engine address.  The
stored parent `context.Context` is opaque and carries no observable state, so
it is omitted. -/
structure ContainerdClient where
  client : Option Conn
  timeout : Int
  address : String
deriving DecidableEq, Repr

/-- `NewContainerdClient`: the struct literal sets context, timeout and
address; the `client` field is left at its zero value `nil`. -/
def NewContainerdClient (timeout : Int) (address : String) : ContainerdClient :=
  { client := none, timeout := timeout, address := address }

/-- `getContext`: with a positive timeout the derived context is
deadline-bound (`context.WithTimeout`), otherwise cancellation-bound
(`context.WithCancel`).  We record only which of the two was built. -/
def getContext (c : ContainerdClient) : Event :=
  Event.mkContext (decide (0 < c.timeout))

/-- `getConnection`: dials `containerd.New(c.address, WithDefaultNamespace ns)`
afresh on every call — it neither reads nor writes the cached `client` field —
and wraps a dialing failure.  `dial` is the engine-supplied outcome of
`containerd.New`. -/
def getConnection (c : ContainerdClient) (dial : Except GoError Conn)
    (ns : String) : Except GoError Conn × List Event :=
  match dial with
  | .error e =>
    (.error (wrap "Unable to create connection to containerd" e), [.connect c.address ns])
  | .ok conn => (.ok conn, [.connect c.address ns])

/-- `resetConnection`: unconditionally clears the cached client. -/
def resetConnection (c : ContainerdClient) : ContainerdClient :=
  { c with client := none }

/-- External outcomes consumed by `GetContainers`. -/
structure ContainersEnv where
  dial : Except GoError Conn
  containers : Except GoError (List RtContainer)
deriving DecidableEq, Repr

/-- `GetContainers`: dial, then `client.Containers(ctx)`; a listing failure
resets the connection and is wrapped. -/
def GetContainers (c : ContainerdClient) (env : ContainersEnv) (ns : String) :
    Except GoError (List RtContainer) × ContainerdClient × List Event :=
  match getConnection c env.dial ns with
  | (.error e, evs) => (.error e, c, getContext c :: evs ++ [.cancel])
  | (.ok _client, evs) =>
    match env.containers with
    | .error e =>
      (.error (wrap "Error while getting list of containers" e),
        resetConnection c, getContext c :: evs ++ [.listContainers, .reset, .cancel])
    | .ok containers =>
      (.ok containers, c, getContext c :: evs ++ [.listContainers, .cancel])

/-- External outcomes consumed by `ensureImagePulled`. -/
structure PullEnv where
  dial : Except GoError Conn
  pull : Except GoError Image
  unpack : Except GoError Unit
deriving DecidableEq, Repr

/-- `ensureImagePulled`: dial for the namespace (a dialing failure propagates
without reset), `client.Pull(ctx, ref)` (failure resets and is wrapped
naming the reference), `image.Unpack(ctx, snapshotter)` (failure resets and
is wrapped naming the digest). -/
def ensureImagePulled (c : ContainerdClient) (env : PullEnv) (ns ref : String) :
    Except GoError Image × ContainerdClient × List Event :=
  match getConnection c env.dial ns with
  | (.error e, evs) => (.error e, c, getContext c :: evs ++ [.cancel])
  | (.ok _client, evs) =>
    match env.pull with
    | .error e =>
      (.error (wrap ("Error pulling image [" ++ ref ++ "]") e),
        resetConnection c, getContext c :: evs ++ [.pull ref, .reset, .cancel])
    | .ok image =>
      match env.unpack with
      | .error e =>
        (.error (wrap ("Error while unpacking image [" ++ image.digest ++ "]") e),
          resetConnection c,
          getContext c :: evs ++ [.pull ref, .unpack image.digest, .reset, .cancel])
      | .ok _ =>
        (.ok image, c,
          getContext c :: evs ++ [.pull ref, .unpack image.digest, .cancel])

/-- External outcomes consumed by `CreateContainer` (those of the nested
`ensureImagePulled` call included). -/
structure CreateEnv where
  dial : Except GoError Conn
  pullEnv : PullEnv
  genSpec : Except GoError Unit
  newContainer : Except GoError RtContainer
deriving DecidableEq, Repr

/-- `CreateContainer`: dial for `pod.GetNamespace()` (failure propagates, no
reset), `ensureImagePulled` (failure propagates as returned by it),
`containerd.GenerateSpec` (failure propagates the raw error, no reset),
`client.NewContainer` (failure resets and is wrapped naming the image). -/
def CreateContainer (c : ContainerdClient) (env : CreateEnv)
    (pod : Pod) (container : MContainer) :
    Except GoError RtContainer × ContainerdClient × List Event :=
  match getConnection c env.dial pod.GetNamespace with
  | (.error e, evs) => (.error e, c, getContext c :: evs ++ [.cancel])
  | (.ok _client, evs) =>
    let pulled := ensureImagePulled c env.pullEnv pod.GetNamespace container.image
    let evsPull := evs ++ [Event.ensurePull pod.GetNamespace container.image] ++ pulled.2.2
    match pulled.1 with
    | .error e => (.error e, pulled.2.1, getContext c :: evsPull ++ [.cancel])
    | .ok image =>
      match env.genSpec with
      | .error e =>
        (.error e, pulled.2.1, getContext c :: evsPull ++ [.genSpec, .cancel])
      | .ok _spec =>
        match env.newContainer with
        | .error e =>
          (.error (wrap ("Failed to create new container from image " ++ image.name) e),
            resetConnection pulled.2.1,
            getContext c :: evsPull ++ [.genSpec, .newContainer container.id, .reset, .cancel])
        | .ok created =>
          (.ok created, pulled.2.1,
            getContext c :: evsPull ++ [.genSpec, .newContainer container.id, .cancel])

/-- External outcomes consumed by `StartContainer`. -/
structure StartEnv where
  newTask : Except GoError RtTask
  start : Except GoError Unit
deriving DecidableEq, Repr

/-- `StartContainer`: `container.NewTask(ctx, NullIO)` (failure resets and is
wrapped naming the container id), then `task.Start(ctx)` (failure resets and
is wrapped; the format string has no verb for the surplus `container.ID()`
argument, so Go renders the id inside a `%!(EXTRA string=...)` suffix). -/
def StartContainer (c : ContainerdClient) (env : StartEnv) (container : RtContainer) :
    Except GoError Unit × ContainerdClient × List Event :=
  match env.newTask with
  | .error e =>
    (.error (wrap ("Error while creating task for container [" ++ container.id ++ "]") e),
      resetConnection c, [getContext c, .newTask container.id, .reset, .cancel])
  | .ok _task =>
    match env.start with
    | .error e =>
      (.error (wrap ("Failed to start task in container%!(EXTRA string=" ++ container.id ++ ")") e),
        resetConnection c, [getContext c, .newTask container.id, .taskStart, .reset, .cancel])
    | .ok _ =>
      (.ok (), c, [getContext c, .newTask container.id, .taskStart, .cancel])

/-- External outcomes consumed by `StopContainer`.  `taskDelete` is the
outcome of `task.Delete(ctx, WithProcessKill)`, which the code discards. -/
structure StopEnv where
  task : Except GoError RtTask
  taskDelete : Except GoError Unit
  delete : Except GoError Unit
deriving DecidableEq, Repr

/-- `StopContainer`: `container.Task(ctx, nil)` — when it succeeds the task is
deleted with a kill signal and that outcome is discarded; when it fails the
failure is silently skipped.  Then `container.Delete(ctx, WithSnapshotCleanup)`
is attempted unconditionally; its failure resets the connection and is
wrapped naming the container id. -/
def StopContainer (c : ContainerdClient) (env : StopEnv) (container : RtContainer) :
    Except GoError Unit × ContainerdClient × List Event :=
  let taskEvs :=
    match env.task with
    | .ok _task => [Event.containerTask container.id, Event.taskDelete]
    | .error _ => [Event.containerTask container.id]
  match env.delete with
  | .error e =>
    (.error (wrap ("Failed to delete container " ++ container.id) e),
      resetConnection c,
      getContext c :: taskEvs ++ [.containerDelete container.id, .reset, .cancel])
  | .ok _ =>
    (.ok (), c, getContext c :: taskEvs ++ [.containerDelete container.id, .cancel])

/-- External outcomes consumed by `GetNamespaces`. -/
structure NsEnv where
  dial : Except GoError Conn
  list : Except GoError (List NamespaceInfo)
deriving DecidableEq, Repr

/-- `getNamespaces` (package-level helper): keeps, in listing order, every
reported name other than the literal `"default"`. -/
def getNamespaces (nss : List NamespaceInfo) : List String :=
  nss.foldl (fun result nsInfo =>
    if nsInfo.name ≠ "default" then result ++ [nsInfo.name] else result) []

/-- `GetNamespaces`: dial with the default namespace (failure propagates, no
reset), `client.NamespaceService().List` (failure propagates the raw error,
no reset, no wrap), success filtered through `getNamespaces`. -/
def GetNamespaces (c : ContainerdClient) (env : NsEnv) :
    Except GoError (List String) × ContainerdClient × List Event :=
  match getConnection c env.dial DefaultNamespace with
  | (.error e, evs) => (.error e, c, getContext c :: evs ++ [.cancel])
  | (.ok _client, evs) =>
    match env.list with
    | .error e => (.error e, c, getContext c :: evs ++ [.listNamespaces, .cancel])
    | .ok nss =>
      (.ok (getNamespaces nss), c, getContext c :: evs ++ [.listNamespaces, .cancel])

/-- `IsContainerRunning`: `container.Task(ctx, nil)`; a not-found failure is
`(false, nil)`, any other failure is `(false, err)` unwrapped, success is
`(true, nil)`.  The connection is never reset here. -/
def IsContainerRunning (c : ContainerdClient) (taskResult : Except GoError RtTask)
    (container : RtContainer) :
    (Bool × Option GoError) × ContainerdClient × List Event :=
  match taskResult with
  | .error e =>
    if e.notFound then
      ((false, none), c, [getContext c, .containerTask container.id, .cancel])
    else
      ((false, some e), c, [getContext c, .containerTask container.id, .cancel])
  | .ok _task =>
    ((true, none), c, [getContext c, .containerTask container.id, .cancel])

/-- External outcomes consumed by `GetContainerTaskStatus`. -/
structure StatusEnv where
  dial : Except GoError Conn
  taskGet : Except GoError TaskInfo
deriving DecidableEq, Repr

/-- `GetContainerTaskStatus`: dial with the default namespace (failure is
logged and yields `"UNKNOWN"`), `client.TaskService().Get` (failure is logged
and yields `"UNKNOWN"`), success yields `resp.Process.Status.String()`.
The connection is never reset here and no error is ever returned. -/
def GetContainerTaskStatus (c : ContainerdClient) (env : StatusEnv)
    (containerID : String) : String × ContainerdClient × List Event :=
  match getConnection c env.dial DefaultNamespace with
  | (.error _e, evs) => ("UNKNOWN", c, getContext c :: evs ++ [.cancel])
  | (.ok _client, evs) =>
    match env.taskGet with
    | .error _e => ("UNKNOWN", c, getContext c :: evs ++ [.taskGet containerID, .cancel])
    | .ok info =>
      (info.status.toString, c, getContext c :: evs ++ [.taskGet containerID, .cancel])

/-- A client state is reachable when it is a `NewContainerdClient` value or
results from running any operation on a reachable state. -/
inductive Reachable : ContainerdClient → Prop
  | new (timeout : Int) (address : String) :
      Reachable (NewContainerdClient timeout address)
  | getContainers (c : ContainerdClient) (env : ContainersEnv) (ns : String) :
      Reachable c → Reachable (GetContainers c env ns).2.1
  | createContainer (c : ContainerdClient) (env : CreateEnv) (pod : Pod)
      (container : MContainer) :
      Reachable c → Reachable (CreateContainer c env pod container).2.1
  | startContainer (c : ContainerdClient) (env : StartEnv) (container : RtContainer) :
      Reachable c → Reachable (StartContainer c env container).2.1
  | stopContainer (c : ContainerdClient) (env : StopEnv) (container : RtContainer) :
      Reachable c → Reachable (StopContainer c env container).2.1
  | ensurePulled (c : ContainerdClient) (env : PullEnv) (ns ref : String) :
      Reachable c → Reachable (ensureImagePulled c env ns ref).2.1
  | getNss (c : ContainerdClient) (env : NsEnv) :
      Reachable c → Reachable (GetNamespaces c env).2.1
  | isRunning (c : ContainerdClient) (taskResult : Except GoError RtTask)
      (container : RtContainer) :
      Reachable c → Reachable (IsContainerRunning c taskResult container).2.1
  | taskStatus (c : ContainerdClient) (env : StatusEnv) (containerID : String) :
      Reachable c → Reachable (GetContainerTaskStatus c env containerID).2.1

/-- Strings: `sub` occurs verbatim inside `s`. -/
def mentions (sub s : String) : Prop := ∃ p q, s = p ++ sub ++ q

/-- Whether an event marks an invocation of `ensureImagePulled`. -/
def Event.isEnsurePull : Event → Bool
  | .ensurePull _ _ => true
  | _ => false

/-- How many `ensureImagePulled` invocations a trace records. -/
def ensurePullCalls (trace : List Event) : Nat :=
  (trace.filter Event.isEnsurePull).length

/-- C3: for every container id, `GetContainerTaskStatus` is a total function
into `String` (it never returns an error and never panics); when the
connection cannot be established it returns exactly `"UNKNOWN"`, when the task
lookup fails it returns exactly `"UNKNOWN"`, and when the lookup succeeds it
returns the found task's process status rendered as its canonical name. -/
theorem getContainerTaskStatus_never_fails (c : ContainerdClient) (env : StatusEnv)
    (containerID : String) :
    (∀ e, env.dial = .error e →
      (GetContainerTaskStatus c env containerID).1 = "UNKNOWN") ∧
    (∀ conn e, env.dial = .ok conn → env.taskGet = .error e →
      (GetContainerTaskStatus c env containerID).1 = "UNKNOWN") ∧
    (∀ conn info, env.dial = .ok conn → env.taskGet = .ok info →
      (GetContainerTaskStatus c env containerID).1 = info.status.toString) := by
  refine ⟨?_, ?_, ?_⟩
  · intro e h
    simp [GetContainerTaskStatus, getConnection, h]
  · intro conn e hd ht
    simp [GetContainerTaskStatus, getConnection, hd, ht]
  · intro conn info hd ht
    simp [GetContainerTaskStatus, getConnection, hd, ht]

theorem getContainerTaskStatus_never_fails_witness :
    (GetContainerTaskStatus (NewContainerdClient 5 "sock")
      { dial := .error { notFound := false, msg := "down" },
        taskGet := .error { notFound := false, msg := "x" } } "c1").1 = "UNKNOWN" ∧
    (GetContainerTaskStatus (NewContainerdClient 5 "sock")
      { dial := .ok { id := 1 },
        taskGet := .error { notFound := true, msg := "nf" } } "c1").1 = "UNKNOWN" ∧
    (GetContainerTaskStatus (NewContainerdClient 5 "sock")
      { dial := .ok { id := 1 }, taskGet := .ok { status := .running } } "c1").1 =
      TaskStatus.running.toString :=
  ⟨(getContainerTaskStatus_never_fails _ _ _).1 _ rfl,
   (getContainerTaskStatus_never_fails _ _ _).2.1 _ _ rfl rfl,
   (getContainerTaskStatus_never_fails _ _ _).2.2 _ _ rfl rfl⟩

/-- C4: for every container, `IsContainerRunning` maps a not-found lookup
failure to `(false, nil)`, any other lookup failure to `(false, err)` with the
lookup error itself, and a found task to `(true, nil)`. -/
theorem isContainerRunning_cases (c : ContainerdClient)
    (taskResult : Except GoError RtTask) (container : RtContainer) :
    (∀ e, taskResult = .error e → e.notFound = true →
      (IsContainerRunning c taskResult container).1 = (false, none)) ∧
    (∀ e, taskResult = .error e → e.notFound = false →
      (IsContainerRunning c taskResult container).1 = (false, some e)) ∧
    (∀ t, taskResult = .ok t →
      (IsContainerRunning c taskResult container).1 = (true, none)) := by
  refine ⟨?_, ?_, ?_⟩
  · intro e h hn
    simp [IsContainerRunning, h, hn]
  · intro e h hn
    simp [IsContainerRunning, h, hn]
  · intro t h
    simp [IsContainerRunning, h]

theorem isContainerRunning_cases_witness :
    (IsContainerRunning (NewContainerdClient 5 "sock")
      (.error { notFound := true, msg := "not found" }) { id := "c1" }).1 = (false, none) ∧
    (IsContainerRunning (NewContainerdClient 5 "sock")
      (.error { notFound := false, msg := "boom" }) { id := "c1" }).1 =
      (false, some { notFound := false, msg := "boom" }) ∧
    (IsContainerRunning (NewContainerdClient 5 "sock")
      (.ok { pid := 7 }) { id := "c1" }).1 = (true, none) :=
  ⟨(isContainerRunning_cases _ _ _).1 _ rfl rfl,
   (isContainerRunning_cases _ _ _).2.1 _ rfl rfl,
   (isContainerRunning_cases _ _ _).2.2 _ rfl⟩

/-- C5: for every container and any task-fetch outcome, `StopContainer`
attempts the container deletion (the task-fetch failure is silently skipped
and never surfaced); only a failure of the container-deletion step is
surfaced, resetting the connection and wrapping the error with a message that
names the container id; when the deletion succeeds no error is returned. -/
theorem stopContainer_deletion_policy (c : ContainerdClient) (env : StopEnv)
    (container : RtContainer) :
    Event.containerDelete container.id ∈ (StopContainer c env container).2.2 ∧
    (∀ u, env.delete = .ok u → (StopContainer c env container).1 = .ok ()) ∧
    (∀ e, env.delete = .error e →
      (StopContainer c env container).1 =
        .error (wrap ("Failed to delete container " ++ container.id) e) ∧
      Event.reset ∈ (StopContainer c env container).2.2 ∧
      mentions container.id
        (wrap ("Failed to delete container " ++ container.id) e).msg) := by
  refine ⟨?_, ?_, ?_⟩
  · cases hd : env.delete <;> cases ht : env.task <;>
      simp [StopContainer, hd, ht]
  · intro u hd
    cases ht : env.task <;> simp [StopContainer, hd, ht]
  · intro e hd
    refine ⟨?_, ?_, "Failed to delete container ", ": " ++ e.msg, ?_⟩
    · cases ht : env.task <;> simp [StopContainer, hd, ht]
    · cases ht : env.task <;> simp [StopContainer, hd, ht]
    · simp [wrap, String.append_assoc]

theorem stopContainer_deletion_policy_witness :
    Event.containerDelete "c1" ∈
      (StopContainer (NewContainerdClient 5 "sock")
        { task := .error { notFound := true, msg := "no task" },
          taskDelete := .ok (), delete := .ok () } { id := "c1" }).2.2 ∧
    (StopContainer (NewContainerdClient 5 "sock")
      { task := .error { notFound := true, msg := "no task" },
        taskDelete := .ok (), delete := .ok () } { id := "c1" }).1 = .ok () ∧
    (StopContainer (NewContainerdClient 5 "sock")
      { task := .ok { pid := 7 }, taskDelete := .ok (),
        delete := .error { notFound := false, msg := "boom" } } { id := "c1" }).1 =
      .error (wrap ("Failed to delete container " ++ "c1")
        { notFound := false, msg := "boom" }) :=
  ⟨(stopContainer_deletion_policy _ _ _).1,
   (stopContainer_deletion_policy _ _ _).2.1 _ rfl,
   ((stopContainer_deletion_policy _ _ _).2.2 _ rfl).1⟩

/-- C8: for every container, a failure of either step of `StartContainer`
(task creation or task start) resets the connection and returns a wrapped
error whose message names the container id; when both steps succeed no error
is returned. -/
theorem startContainer_two_steps (c : ContainerdClient) (env : StartEnv)
    (container : RtContainer) :
    (∀ e, env.newTask = .error e →
      (StartContainer c env container).1 =
        .error (wrap ("Error while creating task for container ["
          ++ container.id ++ "]") e) ∧
      Event.reset ∈ (StartContainer c env container).2.2 ∧
      mentions container.id
        (wrap ("Error while creating task for container ["
          ++ container.id ++ "]") e).msg) ∧
    (∀ t e, env.newTask = .ok t → env.start = .error e →
      (StartContainer c env container).1 =
        .error (wrap ("Failed to start task in container%!(EXTRA string="
          ++ container.id ++ ")") e) ∧
      Event.reset ∈ (StartContainer c env container).2.2 ∧
      mentions container.id
        (wrap ("Failed to start task in container%!(EXTRA string="
          ++ container.id ++ ")") e).msg) ∧
    (∀ t u, env.newTask = .ok t → env.start = .ok u →
      (StartContainer c env container).1 = .ok ()) := by
  refine ⟨?_, ?_, ?_⟩
  · intro e h
    refine ⟨?_, ?_, "Error while creating task for container [", "]: " ++ e.msg, ?_⟩
    · simp [StartContainer, h]
    · simp [StartContainer, h]
    · simp [wrap, String.append_assoc]
  · intro t e ht hs
    refine ⟨?_, ?_, "Failed to start task in container%!(EXTRA string=", "): " ++ e.msg, ?_⟩
    · simp [StartContainer, ht, hs]
    · simp [StartContainer, ht, hs]
    · simp [wrap, String.append_assoc]
  · intro t u ht hs
    simp [StartContainer, ht, hs]

theorem startContainer_two_steps_witness :
    (StartContainer (NewContainerdClient 5 "sock")
      { newTask := .error { notFound := false, msg := "boom" }, start := .ok () }
      { id := "c1" }).1 =
      .error (wrap ("Error while creating task for container [" ++ "c1" ++ "]")
        { notFound := false, msg := "boom" }) ∧
    (StartContainer (NewContainerdClient 5 "sock")
      { newTask := .ok { pid := 7 }, start := .error { notFound := false, msg := "boom" } }
      { id := "c1" }).1 =
      .error (wrap ("Failed to start task in container%!(EXTRA string=" ++ "c1" ++ ")")
        { notFound := false, msg := "boom" }) ∧
    (StartContainer (NewContainerdClient 5 "sock")
      { newTask := .ok { pid := 7 }, start := .ok () } { id := "c1" }).1 = .ok () :=
  ⟨((startContainer_two_steps _ _ _).1 _ rfl).1,
   ((startContainer_two_steps _ _ _).2.1 _ _ rfl rfl).1,
   (startContainer_two_steps _ _ _).2.2 _ _ rfl rfl⟩

theorem getNamespaces_foldl (nss : List NamespaceInfo) (acc : List String) :
    nss.foldl (fun result nsInfo =>
      if nsInfo.name ≠ "default" then result ++ [nsInfo.name] else result) acc =
    acc ++ (nss.map NamespaceInfo.name).filter (fun n => n != "default") := by
  induction nss generalizing acc with
  | nil => simp
  | cons head tail ih =>
    rw [List.foldl_cons]
    by_cases h : head.name = "default"
    · rw [if_neg (not_not_intro h), ih]
      simp [h]
    · rw [if_pos h, ih]
      simp [List.filter_cons, h, List.append_assoc]

/-- `getNamespaces` is the order-preserving filter dropping `"default"`. -/
theorem getNamespaces_eq_filter (nss : List NamespaceInfo) :
    getNamespaces nss =
      (nss.map NamespaceInfo.name).filter (fun n => n != "default") := by
  unfold getNamespaces
  rw [getNamespaces_foldl]
  simp

/-- C6 counterexample: the claim quantifies over every sequence the engine
reports, but a sequence may repeat a name, and the filter keeps every
occurrence: for the report `["a", "a"]` the returned sequence contains `"a"`
twice, not exactly once. -/
theorem listNamespaces_duplicate_counterexample :
    (GetNamespaces (NewContainerdClient 5 "sock")
      { dial := .ok { id := 1 },
        list := .ok [{ name := "a" }, { name := "a" }] }).1 = .ok ["a", "a"] ∧
    ¬ ((getNamespaces [{ name := "a" }, { name := "a" }]).count "a" = 1) := by
  constructor
  · simp [GetNamespaces, getConnection, getNamespaces]
  · simp [getNamespaces]

/-- C6 amended: for every duplicate-free sequence of namespaces reported by
the runtime engine, `GetNamespaces` returns `getNamespaces` of the report,
which never includes the literal `"default"`, includes every other reported
name exactly once, and preserves the engine's listing order (it is a sublist
of the reported names). -/
theorem listNamespaces_filters_default (c : ContainerdClient) (env : NsEnv)
    (conn : Conn) (nss : List NamespaceInfo)
    (hd : env.dial = .ok conn) (hl : env.list = .ok nss)
    (hnodup : (nss.map NamespaceInfo.name).Nodup) :
    (GetNamespaces c env).1 = .ok (getNamespaces nss) ∧
    "default" ∉ getNamespaces nss ∧
    (∀ n, n ∈ nss.map NamespaceInfo.name → n ≠ "default" →
      (getNamespaces nss).count n = 1) ∧
    (getNamespaces nss).Sublist (nss.map NamespaceInfo.name) := by
  refine ⟨?_, ?_, ?_, ?_⟩
  · simp [GetNamespaces, getConnection, hd, hl]
  · rw [getNamespaces_eq_filter]
    simp [List.mem_filter]
  · intro n hmem hne
    rw [getNamespaces_eq_filter]
    refine List.count_eq_one_of_mem (hnodup.filter _) ?_
    simp only [List.mem_filter]
    exact ⟨hmem, by simpa using hne⟩
  · rw [getNamespaces_eq_filter]
    exact List.filter_sublist _

theorem listNamespaces_filters_default_witness :
    ((GetNamespaces (NewContainerdClient 5 "sock")
      { dial := .ok { id := 1 },
        list := .ok [{ name := "default" }, { name := "staging" }, { name := "prod" }] }).1 =
      .ok (getNamespaces
        [{ name := "default" }, { name := "staging" }, { name := "prod" }]) ∧
     "default" ∉ getNamespaces
        [{ name := "default" }, { name := "staging" }, { name := "prod" }] ∧
     (∀ n, n ∈ List.map NamespaceInfo.name
          [{ name := "default" }, { name := "staging" }, { name := "prod" }] →
        n ≠ "default" →
        (getNamespaces
          [{ name := "default" }, { name := "staging" }, { name := "prod" }]).count n = 1) ∧
     (getNamespaces
        [{ name := "default" }, { name := "staging" }, { name := "prod" }]).Sublist
       (List.map NamespaceInfo.name
         [{ name := "default" }, { name := "staging" }, { name := "prod" }])) ∧
    getNamespaces [{ name := "default" }, { name := "staging" }, { name := "prod" }] =
      ["staging", "prod"] :=
  ⟨listNamespaces_filters_default _ _ _ _ rfl rfl (by simp [List.Nodup]),
   by simp [getNamespaces]⟩

/-- C1 counterexample: two runtime-engine failures that are neither
connection-establishment failures nor not-found probes violate the claimed
policy.  A spec-generation failure inside `CreateContainer` propagates the
raw engine error (no wrapping, no subject context) and the trace contains no
`resetConnection`; a namespace-list failure inside `GetNamespaces` likewise
propagates the raw error with no reset. -/
theorem operation_failure_policy_counterexample :
    (CreateContainer (NewContainerdClient 5 "sock")
      { dial := .ok { id := 1 },
        pullEnv :=
          { dial := .ok { id := 2 },
            pull := .ok { name := "reg/app:1", digest := "sha256:deadbeef" },
            unpack := .ok () },
        genSpec := .error { notFound := false, msg := "boom" },
        newContainer := .ok { id := "c1" } }
      { ns := "edge" } { id := "c1", image := "reg/app:1" }).1 =
      .error { notFound := false, msg := "boom" } ∧
    Event.reset ∉ (CreateContainer (NewContainerdClient 5 "sock")
      { dial := .ok { id := 1 },
        pullEnv :=
          { dial := .ok { id := 2 },
            pull := .ok { name := "reg/app:1", digest := "sha256:deadbeef" },
            unpack := .ok () },
        genSpec := .error { notFound := false, msg := "boom" },
        newContainer := .ok { id := "c1" } }
      { ns := "edge" } { id := "c1", image := "reg/app:1" }).2.2 ∧
    (GetNamespaces (NewContainerdClient 5 "sock")
      { dial := .ok { id := 1 },
        list := .error { notFound := false, msg := "boom2" } }).1 =
      .error { notFound := false, msg := "boom2" } ∧
    Event.reset ∉ (GetNamespaces (NewContainerdClient 5 "sock")
      { dial := .ok { id := 1 },
        list := .error { notFound := false, msg := "boom2" } }).2.2 := by
  refine ⟨?_, ?_, ?_, ?_⟩ <;>
    simp [CreateContainer, ensureImagePulled, GetNamespaces, getConnection,
      getContext, NewContainerdClient]

/-- C1 amended: for every client-operation failure site other than
connection establishment, the not-found probes, the spec-generation step of
`CreateContainer` and the namespace-list step of `GetNamespaces` (which both
propagate the raw error without wrapping and without invalidation), the
operation returns the engine error wrapped with context identifying the
subject and resets the cached connection before returning: image pull and
unpack failures, container-creation failure, task-creation and task-start
failures, container-deletion failure, and container-list failure. -/
theorem operation_failure_policy (c : ContainerdClient) :
    (∀ env ns ref conn e, env.dial = .ok conn → env.pull = .error e →
      (ensureImagePulled c env ns ref).1 =
        .error (wrap ("Error pulling image [" ++ ref ++ "]") e) ∧
      Event.reset ∈ (ensureImagePulled c env ns ref).2.2) ∧
    (∀ env ns ref conn img e,
      env.dial = .ok conn → env.pull = .ok img → env.unpack = .error e →
      (ensureImagePulled c env ns ref).1 =
        .error (wrap ("Error while unpacking image [" ++ img.digest ++ "]") e) ∧
      Event.reset ∈ (ensureImagePulled c env ns ref).2.2) ∧
    (∀ env pod cont conn conn2 img e,
      env.dial = .ok conn → env.pullEnv.dial = .ok conn2 →
      env.pullEnv.pull = .ok img → env.pullEnv.unpack = .ok () →
      env.genSpec = .ok () → env.newContainer = .error e →
      (CreateContainer c env pod cont).1 =
        .error (wrap ("Failed to create new container from image " ++ img.name) e) ∧
      Event.reset ∈ (CreateContainer c env pod cont).2.2) ∧
    (∀ env cont e, env.newTask = .error e →
      (StartContainer c env cont).1 =
        .error (wrap ("Error while creating task for container ["
          ++ cont.id ++ "]") e) ∧
      Event.reset ∈ (StartContainer c env cont).2.2) ∧
    (∀ env cont t e, env.newTask = .ok t → env.start = .error e →
      (StartContainer c env cont).1 =
        .error (wrap ("Failed to start task in container%!(EXTRA string="
          ++ cont.id ++ ")") e) ∧
      Event.reset ∈ (StartContainer c env cont).2.2) ∧
    (∀ env cont e, env.delete = .error e →
      (StopContainer c env cont).1 =
        .error (wrap ("Failed to delete container " ++ cont.id) e) ∧
      Event.reset ∈ (StopContainer c env cont).2.2) ∧
    (∀ env ns conn e, env.dial = .ok conn → env.containers = .error e →
      (GetContainers c env ns).1 =
        .error (wrap "Error while getting list of containers" e) ∧
      Event.reset ∈ (GetContainers c env ns).2.2) := by
  refine ⟨?_, ?_, ?_, ?_, ?_, ?_, ?_⟩
  · intro env ns ref conn e hd hp
    simp [ensureImagePulled, getConnection, hd, hp]
  · intro env ns ref conn img e hd hp hu
    simp [ensureImagePulled, getConnection, hd, hp, hu]
  · intro env pod cont conn conn2 img e hd hpd hpp hpu hg hn
    simp [CreateContainer, ensureImagePulled, getConnection, hd, hpd, hpp, hpu, hg, hn]
  · intro env cont e hn
    simp [StartContainer, hn]
  · intro env cont t e hn hs
    simp [StartContainer, hn, hs]
  · intro env cont e hd
    cases ht : env.task <;> simp [StopContainer, hd, ht]
  · intro env ns conn e hd hc
    simp [GetContainers, getConnection, hd, hc]

set_option maxHeartbeats 2000000 in
theorem operation_failure_policy_witness :
    (ensureImagePulled (NewContainerdClient 5 "sock")
      { dial := .ok { id := 1 }, pull := .error { notFound := false, msg := "p" },
        unpack := .ok () } "edge" "reg/app:1").1 =
      .error (wrap ("Error pulling image [" ++ "reg/app:1" ++ "]")
        { notFound := false, msg := "p" }) ∧
    (ensureImagePulled (NewContainerdClient 5 "sock")
      { dial := .ok { id := 1 },
        pull := .ok { name := "reg/app:1", digest := "sha256:d" },
        unpack := .error { notFound := false, msg := "u" } } "edge" "reg/app:1").1 =
      .error (wrap ("Error while unpacking image [" ++ "sha256:d" ++ "]")
        { notFound := false, msg := "u" }) ∧
    (CreateContainer (NewContainerdClient 5 "sock")
      { dial := .ok { id := 1 },
        pullEnv :=
          { dial := .ok { id := 2 },
            pull := .ok { name := "reg/app:1", digest := "sha256:d" },
            unpack := .ok () },
        genSpec := .ok (),
        newContainer := .error { notFound := false, msg := "n" } }
      { ns := "edge" } { id := "c1", image := "reg/app:1" }).1 =
      .error (wrap ("Failed to create new container from image " ++ "reg/app:1")
        { notFound := false, msg := "n" }) ∧
    (StartContainer (NewContainerdClient 5 "sock")
      { newTask := .error { notFound := false, msg := "t" }, start := .ok () }
      { id := "c1" }).1 =
      .error (wrap ("Error while creating task for container [" ++ "c1" ++ "]")
        { notFound := false, msg := "t" }) ∧
    (StartContainer (NewContainerdClient 5 "sock")
      { newTask := .ok { pid := 7 }, start := .error { notFound := false, msg := "s" } }
      { id := "c1" }).1 =
      .error (wrap ("Failed to start task in container%!(EXTRA string=" ++ "c1" ++ ")")
        { notFound := false, msg := "s" }) ∧
    (StopContainer (NewContainerdClient 5 "sock")
      { task := .ok { pid := 7 }, taskDelete := .ok (),
        delete := .error { notFound := false, msg := "d" } } { id := "c1" }).1 =
      .error (wrap ("Failed to delete container " ++ "c1")
        { notFound := false, msg := "d" }) ∧
    (GetContainers (NewContainerdClient 5 "sock")
      { dial := .ok { id := 1 },
        containers := .error { notFound := false, msg := "l" } } "edge").1 =
      .error (wrap "Error while getting list of containers"
        { notFound := false, msg := "l" }) := by
  refine ⟨?_, ?_, ?_, ?_, ?_, ?_, ?_⟩
  · exact ((operation_failure_policy (NewContainerdClient 5 "sock")).1
      { dial := .ok { id := 1 }, pull := .error { notFound := false, msg := "p" },
        unpack := .ok () }
      "edge" "reg/app:1" { id := 1 } { notFound := false, msg := "p" } rfl rfl).1
  · exact ((operation_failure_policy (NewContainerdClient 5 "sock")).2.1
      { dial := .ok { id := 1 },
        pull := .ok { name := "reg/app:1", digest := "sha256:d" },
        unpack := .error { notFound := false, msg := "u" } }
      "edge" "reg/app:1" { id := 1 } { name := "reg/app:1", digest := "sha256:d" }
      { notFound := false, msg := "u" } rfl rfl rfl).1
  · exact ((operation_failure_policy (NewContainerdClient 5 "sock")).2.2.1
      { dial := .ok { id := 1 },
        pullEnv :=
          { dial := .ok { id := 2 },
            pull := .ok { name := "reg/app:1", digest := "sha256:d" },
            unpack := .ok () },
        genSpec := .ok (),
        newContainer := .error { notFound := false, msg := "n" } }
      { ns := "edge" } { id := "c1", image := "reg/app:1" } { id := 1 } { id := 2 }
      { name := "reg/app:1", digest := "sha256:d" } { notFound := false, msg := "n" }
      rfl rfl rfl rfl rfl rfl).1
  · exact ((operation_failure_policy (NewContainerdClient 5 "sock")).2.2.2.1
      { newTask := .error { notFound := false, msg := "t" }, start := .ok () }
      { id := "c1" } { notFound := false, msg := "t" } rfl).1
  · exact ((operation_failure_policy (NewContainerdClient 5 "sock")).2.2.2.2.1
      { newTask := .ok { pid := 7 }, start := .error { notFound := false, msg := "s" } }
      { id := "c1" } { pid := 7 } { notFound := false, msg := "s" } rfl rfl).1
  · exact ((operation_failure_policy (NewContainerdClient 5 "sock")).2.2.2.2.2.1
      { task := .ok { pid := 7 }, taskDelete := .ok (),
        delete := .error { notFound := false, msg := "d" } }
      { id := "c1" } { notFound := false, msg := "d" } rfl).1
  · exact ((operation_failure_policy (NewContainerdClient 5 "sock")).2.2.2.2.2.2
      { dial := .ok { id := 1 },
        containers := .error { notFound := false, msg := "l" } }
      "edge" { id := 1 } { notFound := false, msg := "l" } rfl rfl).1

/-- C2 counterexample: when establishing the initial connection fails,
`CreateContainer` returns before reaching the image step, so
`ensureImagePulled` is invoked zero times in that call, not exactly once. -/
theorem createContainer_pull_once_counterexample :
    ensurePullCalls (CreateContainer (NewContainerdClient 5 "sock")
      { dial := .error { notFound := false, msg := "refused" },
        pullEnv :=
          { dial := .ok { id := 2 },
            pull := .ok { name := "reg/app:1", digest := "sha256:d" },
            unpack := .ok () },
        genSpec := .ok (), newContainer := .ok { id := "c1" } }
      { ns := "edge" } { id := "c1", image := "reg/app:1" }).2.2 = 0 ∧
    ¬ ensurePullCalls (CreateContainer (NewContainerdClient 5 "sock")
      { dial := .error { notFound := false, msg := "refused" },
        pullEnv :=
          { dial := .ok { id := 2 },
            pull := .ok { name := "reg/app:1", digest := "sha256:d" },
            unpack := .ok () },
        genSpec := .ok (), newContainer := .ok { id := "c1" } }
      { ns := "edge" } { id := "c1", image := "reg/app:1" }).2.2 = 1 := by
  constructor <;>
    simp [CreateContainer, getConnection, getContext, NewContainerdClient,
      ensurePullCalls, Event.isEnsurePull]

/-- C2 amended: when the initial connection of `CreateContainer` fails, the
call fails without invoking `ensureImagePulled`; once the connection is
established, `ensureImagePulled` is invoked exactly once per call, and if
either the pull step or the unpack step fails, `CreateContainer` returns an
error without ever invoking the engine's container-creation operation. -/
theorem createContainer_pull_once (c : ContainerdClient) (env : CreateEnv)
    (pod : Pod) (container : MContainer) :
    (∀ e, env.dial = .error e →
      ensurePullCalls (CreateContainer c env pod container).2.2 = 0 ∧
      ∃ e2, (CreateContainer c env pod container).1 = .error e2) ∧
    (∀ conn, env.dial = .ok conn →
      ensurePullCalls (CreateContainer c env pod container).2.2 = 1) ∧
    (∀ conn conn2 e, env.dial = .ok conn → env.pullEnv.dial = .ok conn2 →
      env.pullEnv.pull = .error e →
      (∃ e2, (CreateContainer c env pod container).1 = .error e2) ∧
      ∀ s, Event.newContainer s ∉ (CreateContainer c env pod container).2.2) ∧
    (∀ conn conn2 img e, env.dial = .ok conn → env.pullEnv.dial = .ok conn2 →
      env.pullEnv.pull = .ok img → env.pullEnv.unpack = .error e →
      (∃ e2, (CreateContainer c env pod container).1 = .error e2) ∧
      ∀ s, Event.newContainer s ∉ (CreateContainer c env pod container).2.2) := by
  obtain ⟨dial, ⟨pd, pp, pu⟩, gs, nc⟩ := env
  refine ⟨?_, ?_, ?_, ?_⟩
  · intro e h
    subst h
    simp [CreateContainer, getConnection, getContext, ensurePullCalls,
      Event.isEnsurePull]
  · intro conn h
    subst h
    cases pd <;> cases pp <;> cases pu <;> cases gs <;> cases nc <;>
      simp [CreateContainer, ensureImagePulled, getConnection, getContext,
        ensurePullCalls, Event.isEnsurePull]
  · intro conn conn2 e h hpd hpp
    subst h
    simp only at hpd hpp
    subst hpd
    subst hpp
    simp [CreateContainer, ensureImagePulled, getConnection, getContext]
  · intro conn conn2 img e h hpd hpp hpu
    subst h
    simp only at hpd hpp hpu
    subst hpd
    subst hpp
    subst hpu
    simp [CreateContainer, ensureImagePulled, getConnection, getContext]

theorem createContainer_pull_once_witness :
    (ensurePullCalls (CreateContainer (NewContainerdClient 5 "sock")
      { dial := .error { notFound := false, msg := "refused" },
        pullEnv :=
          { dial := .ok { id := 2 },
            pull := .ok { name := "reg/app:1", digest := "sha256:d" },
            unpack := .ok () },
        genSpec := .ok (), newContainer := .ok { id := "c1" } }
      { ns := "edge" } { id := "c1", image := "reg/app:1" }).2.2 = 0 ∧
      ∃ e2, (CreateContainer (NewContainerdClient 5 "sock")
        { dial := .error { notFound := false, msg := "refused" },
          pullEnv :=
            { dial := .ok { id := 2 },
              pull := .ok { name := "reg/app:1", digest := "sha256:d" },
              unpack := .ok () },
          genSpec := .ok (), newContainer := .ok { id := "c1" } }
        { ns := "edge" } { id := "c1", image := "reg/app:1" }).1 = .error e2) ∧
    ensurePullCalls (CreateContainer (NewContainerdClient 5 "sock")
      { dial := .ok { id := 1 },
        pullEnv :=
          { dial := .ok { id := 2 },
            pull := .ok { name := "reg/app:1", digest := "sha256:d" },
            unpack := .ok () },
        genSpec := .ok (), newContainer := .ok { id := "c1" } }
      { ns := "edge" } { id := "c1", image := "reg/app:1" }).2.2 = 1 ∧
    (∀ s, Event.newContainer s ∉ (CreateContainer (NewContainerdClient 5 "sock")
      { dial := .ok { id := 1 },
        pullEnv :=
          { dial := .ok { id := 2 },
            pull := .error { notFound := false, msg := "p" },
            unpack := .ok () },
        genSpec := .ok (), newContainer := .ok { id := "c1" } }
      { ns := "edge" } { id := "c1", image := "reg/app:1" }).2.2) ∧
    (∀ s, Event.newContainer s ∉ (CreateContainer (NewContainerdClient 5 "sock")
      { dial := .ok { id := 1 },
        pullEnv :=
          { dial := .ok { id := 2 },
            pull := .ok { name := "reg/app:1", digest := "sha256:d" },
            unpack := .error { notFound := false, msg := "u" } },
        genSpec := .ok (), newContainer := .ok { id := "c1" } }
      { ns := "edge" } { id := "c1", image := "reg/app:1" }).2.2) := by
  refine ⟨?_, ?_, ?_, ?_⟩
  · exact (createContainer_pull_once (NewContainerdClient 5 "sock")
      { dial := .error { notFound := false, msg := "refused" },
        pullEnv :=
          { dial := .ok { id := 2 },
            pull := .ok { name := "reg/app:1", digest := "sha256:d" },
            unpack := .ok () },
        genSpec := .ok (), newContainer := .ok { id := "c1" } }
      { ns := "edge" } { id := "c1", image := "reg/app:1" }).1
      { notFound := false, msg := "refused" } rfl
  · exact (createContainer_pull_once (NewContainerdClient 5 "sock")
      { dial := .ok { id := 1 },
        pullEnv :=
          { dial := .ok { id := 2 },
            pull := .ok { name := "reg/app:1", digest := "sha256:d" },
            unpack := .ok () },
        genSpec := .ok (), newContainer := .ok { id := "c1" } }
      { ns := "edge" } { id := "c1", image := "reg/app:1" }).2.1 { id := 1 } rfl
  · exact ((createContainer_pull_once (NewContainerdClient 5 "sock")
      { dial := .ok { id := 1 },
        pullEnv :=
          { dial := .ok { id := 2 },
            pull := .error { notFound := false, msg := "p" },
            unpack := .ok () },
        genSpec := .ok (), newContainer := .ok { id := "c1" } }
      { ns := "edge" } { id := "c1", image := "reg/app:1" }).2.2.1
      { id := 1 } { id := 2 } { notFound := false, msg := "p" } rfl rfl rfl).2
  · exact ((createContainer_pull_once (NewContainerdClient 5 "sock")
      { dial := .ok { id := 1 },
        pullEnv :=
          { dial := .ok { id := 2 },
            pull := .ok { name := "reg/app:1", digest := "sha256:d" },
            unpack := .error { notFound := false, msg := "u" } },
        genSpec := .ok (), newContainer := .ok { id := "c1" } }
      { ns := "edge" } { id := "c1", image := "reg/app:1" }).2.2.2
      { id := 1 } { id := 2 } { name := "reg/app:1", digest := "sha256:d" }
      { notFound := false, msg := "u" } rfl rfl rfl rfl).2

/-- C7: no operation ever reads the cached connection.  Whatever connection
handle is cached (in particular one left over from a failed operation),
replacing it changes neither the result nor the trace of any
connection-using operation, and each such operation's trace records a fresh
dial (`containerd.New`) for the requested namespace.  Hence the operation
following an OperationError or ConnectionError establishes a new connection
instead of reusing the one involved in the failure. -/
theorem fresh_connection_per_operation (c : ContainerdClient) (x : Option Conn) :
    (∀ dial ns, getConnection { c with client := x } dial ns = getConnection c dial ns ∧
      Event.connect c.address ns ∈ (getConnection c dial ns).2) ∧
    (∀ env ns,
      (GetContainers { c with client := x } env ns).1 = (GetContainers c env ns).1 ∧
      (GetContainers { c with client := x } env ns).2.2 = (GetContainers c env ns).2.2 ∧
      Event.connect c.address ns ∈ (GetContainers c env ns).2.2) ∧
    (∀ env pod cont,
      (CreateContainer { c with client := x } env pod cont).1 =
        (CreateContainer c env pod cont).1 ∧
      (CreateContainer { c with client := x } env pod cont).2.2 =
        (CreateContainer c env pod cont).2.2 ∧
      Event.connect c.address pod.GetNamespace ∈ (CreateContainer c env pod cont).2.2) ∧
    (∀ env ns ref,
      (ensureImagePulled { c with client := x } env ns ref).1 =
        (ensureImagePulled c env ns ref).1 ∧
      (ensureImagePulled { c with client := x } env ns ref).2.2 =
        (ensureImagePulled c env ns ref).2.2 ∧
      Event.connect c.address ns ∈ (ensureImagePulled c env ns ref).2.2) ∧
    (∀ env,
      (GetNamespaces { c with client := x } env).1 = (GetNamespaces c env).1 ∧
      (GetNamespaces { c with client := x } env).2.2 = (GetNamespaces c env).2.2 ∧
      Event.connect c.address DefaultNamespace ∈ (GetNamespaces c env).2.2) ∧
    (∀ env cid,
      (GetContainerTaskStatus { c with client := x } env cid).1 =
        (GetContainerTaskStatus c env cid).1 ∧
      (GetContainerTaskStatus { c with client := x } env cid).2.2 =
        (GetContainerTaskStatus c env cid).2.2 ∧
      Event.connect c.address DefaultNamespace ∈
        (GetContainerTaskStatus c env cid).2.2) := by
  refine ⟨?_, ?_, ?_, ?_, ?_, ?_⟩
  · intro dial ns
    cases dial <;> simp [getConnection, getContext]
  · intro env ns
    obtain ⟨dial, conts⟩ := env
    cases dial <;> cases conts <;>
      simp [GetContainers, getConnection, getContext]
  · intro env pod cont
    obtain ⟨dial, ⟨pd, pp, pu⟩, gs, nc⟩ := env
    cases dial <;> cases pd <;> cases pp <;> cases pu <;> cases gs <;> cases nc <;>
      simp [CreateContainer, ensureImagePulled, getConnection, getContext]
  · intro env ns ref
    obtain ⟨pd, pp, pu⟩ := env
    cases pd <;> cases pp <;> cases pu <;>
      simp [ensureImagePulled, getConnection, getContext]
  · intro env
    obtain ⟨dial, list⟩ := env
    cases dial <;> cases list <;>
      simp [GetNamespaces, getConnection, getContext]
  · intro env cid
    obtain ⟨dial, tg⟩ := env
    cases dial <;> cases tg <;>
      simp [GetContainerTaskStatus, getConnection, getContext]

/-- C9: every public operation derives a fresh execution context as its first
step — deadline-bound exactly when the configured timeout is positive,
cancellation-bound otherwise — and the deferred cancellation is the final
event of the trace on every exit path, success or failure. -/
theorem context_per_operation (c : ContainerdClient) :
    (0 < c.timeout → getContext c = Event.mkContext true) ∧
    (c.timeout ≤ 0 → getContext c = Event.mkContext false) ∧
    (∀ env ns, (GetContainers c env ns).2.2.head? = some (getContext c) ∧
      (GetContainers c env ns).2.2.getLast? = some Event.cancel) ∧
    (∀ env pod cont,
      (CreateContainer c env pod cont).2.2.head? = some (getContext c) ∧
      (CreateContainer c env pod cont).2.2.getLast? = some Event.cancel) ∧
    (∀ env cont, (StartContainer c env cont).2.2.head? = some (getContext c) ∧
      (StartContainer c env cont).2.2.getLast? = some Event.cancel) ∧
    (∀ env cont, (StopContainer c env cont).2.2.head? = some (getContext c) ∧
      (StopContainer c env cont).2.2.getLast? = some Event.cancel) ∧
    (∀ env, (GetNamespaces c env).2.2.head? = some (getContext c) ∧
      (GetNamespaces c env).2.2.getLast? = some Event.cancel) ∧
    (∀ tr cont, (IsContainerRunning c tr cont).2.2.head? = some (getContext c) ∧
      (IsContainerRunning c tr cont).2.2.getLast? = some Event.cancel) ∧
    (∀ env cid,
      (GetContainerTaskStatus c env cid).2.2.head? = some (getContext c) ∧
      (GetContainerTaskStatus c env cid).2.2.getLast? = some Event.cancel) := by
  refine ⟨?_, ?_, ?_, ?_, ?_, ?_, ?_, ?_, ?_⟩
  · intro h
    simp [getContext, h]
  · intro h
    simp [getContext, not_lt.mpr h]
  · intro env ns
    obtain ⟨dial, conts⟩ := env
    cases dial <;> cases conts <;>
      simp [GetContainers, getConnection,
        List.getLast?_cons_cons, List.getLast?_singleton]
  · intro env pod cont
    obtain ⟨dial, ⟨pd, pp, pu⟩, gs, nc⟩ := env
    cases dial <;> cases pd <;> cases pp <;> cases pu <;> cases gs <;> cases nc <;>
      simp [CreateContainer, ensureImagePulled, getConnection,
        List.getLast?_cons_cons, List.getLast?_singleton]
  · intro env cont
    obtain ⟨nt, st⟩ := env
    cases nt <;> cases st <;>
      simp [StartContainer, List.getLast?_cons_cons, List.getLast?_singleton]
  · intro env cont
    obtain ⟨tk, td, dl⟩ := env
    cases tk <;> cases dl <;>
      simp [StopContainer, List.getLast?_cons_cons, List.getLast?_singleton]
  · intro env
    obtain ⟨dial, list⟩ := env
    cases dial <;> cases list <;>
      simp [GetNamespaces, getConnection,
        List.getLast?_cons_cons, List.getLast?_singleton]
  · intro tr cont
    cases htr : tr with
    | error e =>
      by_cases hn : e.notFound <;>
        simp [IsContainerRunning, hn,
          List.getLast?_cons_cons, List.getLast?_singleton]
    | ok t =>
      simp [IsContainerRunning, List.getLast?_cons_cons, List.getLast?_singleton]
  · intro env cid
    obtain ⟨dial, tg⟩ := env
    cases dial <;> cases tg <;>
      simp [GetContainerTaskStatus, getConnection,
        List.getLast?_cons_cons, List.getLast?_singleton]

theorem context_per_operation_witness :
    (0 < (5 : Int) ∧ getContext (NewContainerdClient 5 "sock") = Event.mkContext true) ∧
    ((0 : Int) ≤ 0 ∧ getContext (NewContainerdClient 0 "sock") = Event.mkContext false) :=
  ⟨⟨by decide, (context_per_operation (NewContainerdClient 5 "sock")).1 (by decide)⟩,
   ⟨le_refl 0, (context_per_operation (NewContainerdClient 0 "sock")).2.1 (le_refl 0)⟩⟩

/-- C10: the cached `client` field is `none` in every reachable state: a new
client starts with it `nil`, `getConnection` never writes it (it dials
afresh), and `resetConnection` only sets it to `nil`, so no sequence of
operations can ever make it non-nil — no operation ever reuses a connection
from a previous operation, even after success. -/
theorem cached_client_always_none (c : ContainerdClient) (h : Reachable c) :
    c.client = none := by
  induction h with
  | new t a => rfl
  | getContainers c env ns hr ih =>
    obtain ⟨dial, conts⟩ := env
    cases dial <;> cases conts <;>
      simp [GetContainers, getConnection, resetConnection, ih]
  | createContainer c env pod cont hr ih =>
    obtain ⟨dial, ⟨pd, pp, pu⟩, gs, nc⟩ := env
    cases dial <;> cases pd <;> cases pp <;> cases pu <;> cases gs <;> cases nc <;>
      simp [CreateContainer, ensureImagePulled, getConnection, resetConnection, ih]
  | startContainer c env cont hr ih =>
    obtain ⟨nt, st⟩ := env
    cases nt <;> cases st <;> simp [StartContainer, resetConnection, ih]
  | stopContainer c env cont hr ih =>
    obtain ⟨tk, td, dl⟩ := env
    cases tk <;> cases dl <;> simp [StopContainer, resetConnection, ih]
  | ensurePulled c env ns ref hr ih =>
    obtain ⟨pd, pp, pu⟩ := env
    cases pd <;> cases pp <;> cases pu <;>
      simp [ensureImagePulled, getConnection, resetConnection, ih]
  | getNss c env hr ih =>
    obtain ⟨dial, list⟩ := env
    cases dial <;> cases list <;>
      simp [GetNamespaces, getConnection, resetConnection, ih]
  | isRunning c tr cont hr ih =>
    cases tr with
    | error e => by_cases hn : e.notFound <;> simp [IsContainerRunning, hn, ih]
    | ok t => simp [IsContainerRunning, ih]
  | taskStatus c env cid hr ih =>
    obtain ⟨dial, tg⟩ := env
    cases dial <;> cases tg <;>
      simp [GetContainerTaskStatus, getConnection, resetConnection, ih]

theorem cached_client_always_none_witness :
    (NewContainerdClient 0 "sock").client = none :=
  cached_client_always_none _ (Reachable.new 0 "sock")
